import Mathlib

/-!
Verification of the tt-top Hardware Safety Coordination subsystem
(`src/tt_top/safety.py` and the ML-pattern classifier in
`src/tt_top/tt_top_widget.py`), shallowly embedded in Lean 4.

Python floats that only ever hold exact decimal constants and are combined by
`+`, comparison and `max` are modelled as rationals; `time.time()` values are
abstract rationals supplied by the environment; subprocess / syscall outcomes
are supplied by the environment as explicit sum types.
-/

namespace TTTop

/-- Python `str.lower()` restricted to the ASCII command lines and patterns
the code works with. -/
def strLower (s : String) : String := ⟨s.toList.map Char.toLower⟩

/-- Python's whitespace class for `str.strip()` (ASCII range). -/
def isPyWhitespace (c : Char) : Bool :=
  c = ' ' || c = '\t' || c = '\n' || c = '\r' || c = Char.ofNat 11 || c = Char.ofNat 12

/-- `pat` occurs as a contiguous run inside `hay`. -/
def containsSubChars (pat : List Char) : List Char → Bool
  | [] => pat.isEmpty
  | c :: t => pat.isPrefixOf (c :: t) || containsSubChars pat t

/-- Python's substring operator `pat in hay`. -/
def containsSub (hay pat : String) : Bool := containsSubChars pat.toList hay.toList

/-- Python `str.strip()`: drop leading and trailing whitespace. -/
def pyStrip (s : String) : String :=
  ⟨((s.toList.dropWhile isPyWhitespace).reverse.dropWhile isPyWhitespace).reverse⟩

/-- `SafetyConfig` dataclass from `safety.py`.  Durations are rationals
(Python floats holding exact decimals), counts are integers (Python `int`). -/
structure SafetyConfig where
  normal_poll_interval : ℚ
  workload_poll_interval : ℚ
  critical_poll_interval : ℚ
  max_lock_wait_time : ℚ
  error_detection_window : ℤ
  max_errors_before_disable : ℤ
  workload_check_interval : ℚ
  min_workload_memory_gb : ℚ
  lock_base_path : String
  coordination_file : String
deriving Repr, DecidableEq

/-- The dataclass defaults of `SafetyConfig`. -/
def defaultSafetyConfig : SafetyConfig :=
  { normal_poll_interval := 1/10
    workload_poll_interval := 2
    critical_poll_interval := 5
    max_lock_wait_time := 1
    error_detection_window := 60
    max_errors_before_disable := 3
    workload_check_interval := 1
    min_workload_memory_gb := 1
    lock_base_path := "/tmp/tt_device_lock"
    coordination_file := "/tmp/tt_monitors_active" }

/-- Construction of a `SafetyConfig`.  The Python class is a plain
`@dataclass` with no `__post_init__` and no validation of any kind: the
generated `__init__` only assigns the fields, so the error channel of the
result type is never used and construction succeeds for every argument
tuple. -/
def SafetyConfig.construct (npi wpi cpi mlw : ℚ) (edw meb : ℤ)
    (wci mwm : ℚ) (lbp cf : String) : Except String SafetyConfig :=
  .ok ⟨npi, wpi, cpi, mlw, edw, meb, wci, mwm, lbp, cf⟩

/-- The outcome of the `subprocess.run(['dmesg', ...])` call as seen by
`check_for_pcie_errors`: either the process ran (return code plus the lines of
its stdout, Python `result.stdout.split(chr 10)`), or one of the three
exception classes named in the `except` clause was raised. -/
inductive DmesgOutcome where
  | ran (returncode : ℤ) (lines : List String)
  | timeoutExpired
  | calledProcessError
  | fileNotFoundError
deriving Repr, DecidableEq

/-- The pattern table `pcie_error_patterns` of `check_for_pcie_errors`. -/
def pcie_error_patterns : List String :=
  ["DPC: containment event", "PCIe Bus Error", "unmasked uncorrectable error",
   "SDES", "AER: device recovery failed", "tenstorrent.*AER:"]

/-- The inner double loop of `check_for_pcie_errors`: for each line of the log,
for each pattern, if `pattern.lower() in line.lower()` then `line.strip()` is
appended to `errors_found` (one append per matching line/pattern pair). -/
def matchedPcieLines (lines : List String) : List String :=
  lines.flatMap fun line =>
    (pcie_error_patterns.filter fun pat =>
      containsSub (strLower line) (strLower pat)).map fun _ => pyStrip line

/-- Mutable state of `PCIeErrorDetector` (it stores a reference to the config,
its running error count, the last check time and the disable latch). -/
structure PCIeErrorDetector where
  config : SafetyConfig
  error_count : ℕ
  last_check_time : ℚ
  monitoring_disabled : Bool
deriving Repr, DecidableEq

/-- `PCIeErrorDetector.__init__`. -/
def PCIeErrorDetector.init (cfg : SafetyConfig) (now : ℚ) : PCIeErrorDetector :=
  { config := cfg, error_count := 0, last_check_time := now, monitoring_disabled := false }

/-- `PCIeErrorDetector.check_for_pcie_errors`.  The environment supplies the
outcome of the `dmesg` subprocess and the current wall-clock time.  Returns the
Python return value `(errors_found_bool, errors_found_list)` paired with the
detector state after the call. -/
def check_for_pcie_errors (st : PCIeErrorDetector) (out : DmesgOutcome) (now : ℚ) :
    (Bool × List String) × PCIeErrorDetector :=
  let errors_found : List String :=
    match out with
    | .ran rc lines => if rc = 0 then matchedPcieLines lines else []
    | _ => []
  let count := st.error_count + errors_found.length
  let disabled :=
    if st.config.max_errors_before_disable ≤ (count : ℤ) then true
    else st.monitoring_disabled
  ((errors_found.length > 0, errors_found),
   { st with error_count := count, monitoring_disabled := disabled, last_check_time := now })

/-- `PCIeErrorDetector.should_disable_monitoring`. -/
def should_disable_monitoring (st : PCIeErrorDetector) : Bool :=
  st.monitoring_disabled

/-- `PCIeErrorDetector.reset_error_count`. -/
def reset_error_count (st : PCIeErrorDetector) : PCIeErrorDetector :=
  { st with error_count := 0, monitoring_disabled := false }

/-- One `check_for_pcie_errors` call viewed as a state transition, for folding
a whole sequence of calls. -/
def checkStep (st : PCIeErrorDetector) (p : DmesgOutcome × ℚ) : PCIeErrorDetector :=
  (check_for_pcie_errors st p.1 p.2).2

/-! ## WorkloadDetector -/

/-- The result dict of `WorkloadDetector._detect_ml_framework`. -/
structure MlFrameworks where
  framework : String
  model_type : String
  workload_type : String
deriving Repr, DecidableEq

/-- `framework_patterns` of `WorkloadDetector._detect_ml_framework`
(insertion order of the Python dict). -/
def framework_patterns : List (String × List String) :=
  [("pytorch", ["torch", "torchrun", "pytorch", "transformers", "accelerate"]),
   ("tensorflow", ["tensorflow", "tf.", "keras", "tf_"]),
   ("jax", ["jax", "flax", "optax", "haiku"]),
   ("huggingface", ["transformers", "datasets", "accelerate", "peft"])]

/-- `model_patterns` of `WorkloadDetector._detect_ml_framework`. -/
def model_patterns : List (String × List String) :=
  [("llm", ["gpt", "bert", "roberta", "llama", "mistral", "falcon", "t5"]),
   ("computer_vision", ["resnet", "vgg", "yolo", "rcnn", "efficientnet"]),
   ("audio_speech", ["whisper", "wav2vec", "hubert", "speechbrain"])]

/-- `workload_patterns` of `WorkloadDetector._detect_ml_framework`. -/
def workload_patterns : List (String × List String) :=
  [("training", ["train", "training", "fit", "finetune"]),
   ("inference", ["inference", "infer", "predict", "generate", "serve"]),
   ("evaluation", ["eval", "evaluate", "test", "benchmark"])]

/-- The detection loop shared by the three tables: first kind any of whose
patterns is a substring of the command line wins, otherwise `unknown`. -/
def firstMatchingKind (tbl : List (String × List String)) (cmdline : String) : String :=
  match tbl.find? (fun kp => kp.2.any fun pat => containsSub cmdline pat) with
  | some kp => kp.1
  | none => "unknown"

/-- `WorkloadDetector._detect_ml_framework` (the argument is the already
lower-cased joined command line, as at its call site). -/
def detect_ml_framework (cmdline : String) : MlFrameworks :=
  { framework := firstMatchingKind framework_patterns cmdline
    model_type := firstMatchingKind model_patterns cmdline
    workload_type := firstMatchingKind workload_patterns cmdline }

/-- One process as delivered by `psutil.process_iter` to the scan loop of
`detect_ml_workloads` (only the fields the loop reads).  `memory_rss` is the
`rss` byte count of `memory_info`, `none` when `memory_info` is `None`;
processes that vanish mid-scan are simply absent from the list. -/
structure ProcEntry where
  pid : ℕ
  name : String
  cmdline : List String
  memory_rss : Option ℕ
  num_threads : ℕ
deriving Repr, DecidableEq

/-- The entry appended to `active_ml_workloads` for an ML-matched process. -/
structure WorkloadInfo where
  pid : ℕ
  name : String
  cmdline_snippet : String
  framework : String
  model_type : String
  workload_type : String
  memory_gb : ℚ
  threads : ℕ
deriving Repr, DecidableEq

/-- The entry appended to `high_memory_processes`. -/
structure HighMemInfo where
  pid : ℕ
  name : String
  memory_gb : ℚ
  threads : ℕ
deriving Repr, DecidableEq

/-- `WorkloadState` from `safety.py`. -/
structure WorkloadState where
  active_ml_workloads : List WorkloadInfo
  total_ml_processes : ℕ
  total_ml_memory_gb : ℚ
  high_memory_processes : List HighMemInfo
  last_check_time : ℚ
  is_workload_active : Bool
deriving Repr, DecidableEq

/-- `WorkloadState.__init__`. -/
def WorkloadState.init : WorkloadState :=
  { active_ml_workloads := [], total_ml_processes := 0, total_ml_memory_gb := 0,
    high_memory_processes := [], last_check_time := 0, is_workload_active := false }

/-- `' '.join(proc_info['cmdline']).lower()`. -/
def procCmd (p : ProcEntry) : String :=
  strLower (String.intercalate " " p.cmdline)

/-- `memory_info.rss / (1024 * 1024 * 1024)` with `memory_gb = 0` when
`memory_info` is falsy. -/
def procMemGb (p : ProcEntry) : ℚ :=
  match p.memory_rss with
  | some rss => (rss : ℚ) / (1024 * 1024 * 1024)
  | none => 0

/-- One iteration of the `for proc in psutil.process_iter(...)` loop of
`WorkloadDetector.detect_ml_workloads`: skip empty command lines, classify,
accumulate ML totals for matched processes, and track high-memory
processes. -/
def wlStep (cfg : SafetyConfig) (st : WorkloadState) (p : ProcEntry) : WorkloadState :=
  if p.cmdline = [] then st
  else
    let cmdline := procCmd p
    let memory_gb := procMemGb p
    let fw := detect_ml_framework cmdline
    let st :=
      if fw.framework ≠ "unknown" then
        { st with
          active_ml_workloads := st.active_ml_workloads ++
            [{ pid := p.pid, name := p.name, cmdline_snippet := ⟨cmdline.toList.take 100⟩,
               framework := fw.framework, model_type := fw.model_type,
               workload_type := fw.workload_type, memory_gb := memory_gb,
               threads := p.num_threads }]
          total_ml_memory_gb := st.total_ml_memory_gb + memory_gb
          total_ml_processes := st.total_ml_processes + 1 }
      else st
    if cfg.min_workload_memory_gb < memory_gb then
      { st with high_memory_processes := st.high_memory_processes ++
          [{ pid := p.pid, name := p.name, memory_gb := memory_gb, threads := p.num_threads }] }
    else st

/-- `WorkloadDetector.detect_ml_workloads`.  The environment supplies the
process table snapshot (the accessible processes, in iteration order) and the
current time. -/
def detect_ml_workloads (cfg : SafetyConfig) (procs : List ProcEntry) (now : ℚ) :
    WorkloadState :=
  let st := { WorkloadState.init with last_check_time := now }
  let st := procs.foldl (wlStep cfg) st
  { st with is_workload_active :=
      decide (0 < st.total_ml_processes) ||
      decide (cfg.min_workload_memory_gb < st.total_ml_memory_gb) ||
      decide (0 < st.high_memory_processes.length) }

/-! ## HardwareAccessLock -/

/-- Outcome of one `fcntl.flock(..., LOCK_EX | LOCK_NB)` call inside the wait
loop of `HardwareAccessLock.__enter__`: it returns, raises `BlockingIOError`
(contention), or raises some other exception. -/
inductive FlockAttempt where
  | success
  | blocked
  | otherError
deriving Repr, DecidableEq

/-- Outcome of `open(self.lock_file_path, w)` in `__enter__`. -/
inductive OpenOutcome where
  | opened
  | raised
deriving Repr, DecidableEq

/-- `HardwareAccessLock` state after `__enter__` (the fields `__init__` sets,
with `lock_file_open` standing for `self.lock_file is not None`). -/
structure HardwareAccessLock where
  device_id : ℤ
  lock_file_path : String
  lock_file_open : Bool
  acquired : Bool
deriving Repr, DecidableEq

/-- `HardwareAccessLock.__enter__`.  The environment supplies the outcome of
the `open` call and the finite sequence of `flock` attempt outcomes the wait
loop gets to make before `max_lock_wait_time` elapses (list exhaustion is the
timeout).  A `success` ends the loop with `acquired = True`; a `blocked`
sleeps 10ms and retries; any other exception propagates to the outer
`except Exception` handler, which returns `self` unchanged — so on the open
failure, timeout and exception paths alike the handle comes back with
`acquired = False` and no exception escapes. -/
def lockAttemptLoop : List FlockAttempt → Bool
  | [] => false
  | .success :: _ => true
  | .blocked :: rest => lockAttemptLoop rest
  | .otherError :: _ => false

/-- `HardwareAccessLock(device_id, config).__enter__()` under environment
outcomes `openRes` and `attempts`. -/
def lockEnter (device_id : ℤ) (cfg : SafetyConfig) (openRes : OpenOutcome)
    (attempts : List FlockAttempt) : HardwareAccessLock :=
  match openRes with
  | .raised =>
      { device_id := device_id,
        lock_file_path := cfg.lock_base_path ++ "_" ++ toString device_id,
        lock_file_open := false, acquired := false }
  | .opened =>
      { device_id := device_id,
        lock_file_path := cfg.lock_base_path ++ "_" ++ toString device_id,
        lock_file_open := true, acquired := lockAttemptLoop attempts }

/-- `HardwareAccessLock.is_locked`. -/
def is_locked (h : HardwareAccessLock) : Bool := h.acquired

/-! ## HardwareSafetyCoordinator -/

/-- The value `get_safe_poll_interval` returns: either the `float(inf)`
sentinel or a finite interval. -/
inductive PollResult where
  | infiniteSentinel
  | interval (q : ℚ)
deriving Repr, DecidableEq

/-- Mutable state of `HardwareSafetyCoordinator` (the fields the embedded
operations read or write; the workload detector's cached `last_check` is
unused by them). -/
structure HardwareSafetyCoordinator where
  config : SafetyConfig
  pcie_error_detector : PCIeErrorDetector
  current_poll_interval : ℚ
  safety_mode_enabled : Bool
  monitoring_disabled : Bool
  last_workload_check : ℚ
deriving Repr, DecidableEq

/-- `HardwareSafetyCoordinator.__init__` (detector `last_check_time` is
`time.time()` at construction, here `now`). -/
def HardwareSafetyCoordinator.init (cfg : SafetyConfig) (now : ℚ) :
    HardwareSafetyCoordinator :=
  { config := cfg
    pcie_error_detector := PCIeErrorDetector.init cfg now
    current_poll_interval := cfg.normal_poll_interval
    safety_mode_enabled := false
    monitoring_disabled := false
    last_workload_check := 0 }

/-- `HardwareSafetyCoordinator.get_safe_poll_interval`.  The environment
supplies the current time, the process-table snapshot the workload detector
would see, and the `dmesg` outcome of the unconditional error check.  Mirrors
the source: (1) if the detector has latched disabled, return the infinite
sentinel; (2) if the workload check interval has elapsed, rerun the detector
and set the interval to the workload or normal interval; (3) always run the
PCIe error check and, if it found matches, override with the critical
interval. -/
def get_safe_poll_interval (s : HardwareSafetyCoordinator) (now : ℚ)
    (procs : List ProcEntry) (out : DmesgOutcome) :
    PollResult × HardwareSafetyCoordinator :=
  if should_disable_monitoring s.pcie_error_detector then
    (.infiniteSentinel, { s with monitoring_disabled := true })
  else
    let s :=
      if s.config.workload_check_interval < now - s.last_workload_check then
        let workload_state := detect_ml_workloads s.config procs now
        if workload_state.is_workload_active then
          { s with safety_mode_enabled := true,
                   current_poll_interval := s.config.workload_poll_interval,
                   last_workload_check := now }
        else
          { s with safety_mode_enabled := false,
                   current_poll_interval := s.config.normal_poll_interval,
                   last_workload_check := now }
      else s
    let checked := check_for_pcie_errors s.pcie_error_detector out now
    let s := { s with pcie_error_detector := checked.2 }
    let s :=
      if checked.1.1 then
        { s with current_poll_interval := s.config.critical_poll_interval }
      else s
    (.interval s.current_poll_interval, s)

/-- `HardwareSafetyCoordinator.force_safety_mode`. -/
def force_safety_mode (s : HardwareSafetyCoordinator) (enabled : Bool) :
    HardwareSafetyCoordinator :=
  if enabled then
    { s with safety_mode_enabled := true,
             current_poll_interval := s.config.workload_poll_interval }
  else
    { s with safety_mode_enabled := false,
             current_poll_interval := s.config.normal_poll_interval }

/-- `HardwareSafetyCoordinator.set_custom_poll_interval`: note the source
assigns both `self.current_poll_interval = interval` and
`self.config.normal_poll_interval = interval`. -/
def set_custom_poll_interval (s : HardwareSafetyCoordinator) (interval : ℚ) :
    HardwareSafetyCoordinator :=
  { s with current_poll_interval := interval,
           config := { s.config with normal_poll_interval := interval } }

/-! ## ML command-line classifier of `tt_top_widget.py`

`_analyze_cmdline_for_ml_patterns` matches `re.search(pattern, cmdline_lower)`
against tables of patterns.  Every pattern in those tables is a sequence of
literal segments joined by `.*` (with `\.` escaping a literal dot), so a
pattern is embedded as its list of literal segments, and `re.search` succeeds
iff the segments occur in order, which the left-to-right first-occurrence scan
below decides. -/

/-- The suffix of `hay` strictly after the first occurrence of `seg`, or
`none` when `seg` does not occur. -/
def findDrop (seg : List Char) : List Char → Option (List Char)
  | [] => if seg.isEmpty then some [] else none
  | c :: t =>
      if seg.isPrefixOf (c :: t) then some ((c :: t).drop seg.length)
      else findDrop seg t

/-- `re.search` of a `seg₁.*seg₂.*…` pattern: the segments occur in `hay` in
order, without overlap. -/
def searchSegs : List (List Char) → List Char → Bool
  | [], _ => true
  | seg :: rest, hay =>
      match findDrop seg hay with
      | some remainder => searchSegs rest remainder
      | none => false

/-- One regex of the widget's tables, as its literal segments. -/
def reSearch (segs : List String) (hay : String) : Bool :=
  searchSegs (segs.map String.toList) hay.toList

/-- `framework_patterns` of `_analyze_cmdline_for_ml_patterns`. -/
def widget_framework_patterns : List (String × List (List String)) :=
  [("pytorch", [["python", "torch"], ["torchrun"], ["python", "transformers"],
                ["python", "accelerate"], ["python", "deepspeed"], ["python", "lightning"]]),
   ("tensorflow", [["python", "tensorflow"], ["python", "tf."], ["tf_cnn_benchmarks"],
                   ["python", "keras"]]),
   ("jax", [["python", "jax"], ["python", "flax"], ["python", "optax"],
            ["python", "haiku"], ["python", "dm-haiku"]]),
   ("huggingface", [["python", "transformers"], ["python", "datasets"],
                    ["python", "accelerate"], ["accelerate", "launch"], ["python", "peft"]])]

/-- `model_patterns` of `_analyze_cmdline_for_ml_patterns`. -/
def widget_model_patterns : List (String × List (List String)) :=
  [("llm", [["gpt"], ["bert"], ["roberta"], ["llama"], ["mistral"], ["falcon"],
            ["bloom"], ["t5"], ["bart"], ["opt"], ["palm"], ["claude"]]),
   ("computer_vision", [["resnet"], ["vgg"], ["inception"], ["mobilenet"],
                        ["efficientnet"], ["yolo"], ["rcnn"], ["ssd"], ["unet"], ["segformer"]]),
   ("audio_speech", [["whisper"], ["wav2vec"], ["hubert"], ["speechbrain"], ["espnet"]])]

/-- `workload_patterns` of `_analyze_cmdline_for_ml_patterns`. -/
def widget_workload_patterns : List (String × List (List String)) :=
  [("training", [["train"], ["training"], ["fit"], ["finetune"], ["fine-tune"]]),
   ("inference", [["inference"], ["infer"], ["predict"], ["generate"], ["serve"]]),
   ("evaluation", [["eval"], ["evaluate"], ["test"], ["benchmark"]])]

/-- The per-axis detection loop of the widget: the first kind any of whose
regexes matches wins, with the axis's fixed confidence score; otherwise
`unknown` with confidence 0. -/
def detectAxis (tbl : List (String × List (List String))) (score : ℚ)
    (cmdline : String) : String × ℚ :=
  match tbl.find? (fun kp => kp.2.any fun segs => reSearch segs cmdline) with
  | some kp => (kp.1, score)
  | none => ("unknown", 0)

/-- The classification result of `_analyze_cmdline_for_ml_patterns` (the
fields the detection portion computes). -/
structure MlAnalysis where
  framework : String
  model_type : String
  workload_type : String
  confidence : ℚ
deriving Repr, DecidableEq

/-- The classification portion of `_analyze_cmdline_for_ml_patterns`:
lower-case the command line, detect framework (score 0.8), model type (0.7)
and workload type (0.6), and take the overall confidence as the maximum of
the three. -/
def analyze_cmdline_for_ml_patterns (cmdline : String) : MlAnalysis :=
  let cmdline_lower := strLower cmdline
  let fw := detectAxis widget_framework_patterns (8/10) cmdline_lower
  let model := detectAxis widget_model_patterns (7/10) cmdline_lower
  let workload := detectAxis widget_workload_patterns (6/10) cmdline_lower
  { framework := fw.1, model_type := model.1, workload_type := workload.1,
    confidence := max fw.2 (max model.2 workload.2) }

/-! ## Derived predicates and concrete instances used by the statements -/

/-- A process the scan loop considers at all (`if not proc_info[cmdline]:
continue` skips empty command lines). -/
def mlConsidered (p : ProcEntry) : Bool := !p.cmdline.isEmpty

/-- A considered process classified as an ML workload (its detected framework
is not `unknown`). -/
def mlMatched (p : ProcEntry) : Bool :=
  mlConsidered p && decide ((detect_ml_framework (procCmd p)).framework ≠ "unknown")

/-- A considered process whose resident memory strictly exceeds
`min_workload_memory_gb`. -/
def highMem (cfg : SafetyConfig) (p : ProcEntry) : Bool :=
  mlConsidered p && decide (cfg.min_workload_memory_gb < procMemGb p)

/-- The activity formula exactly as the claim words it: at least one
ML-matched process found, or the aggregate matched memory exceeds the
threshold, or at least one scanned process — matched or not, with no
restriction on its command line — individually exceeds the threshold. -/
def claimWorkloadActive (cfg : SafetyConfig) (procs : List ProcEntry) (now : ℚ) : Bool :=
  decide (0 < (detect_ml_workloads cfg procs now).total_ml_processes) ||
  decide (cfg.min_workload_memory_gb < (detect_ml_workloads cfg procs now).total_ml_memory_gb) ||
  procs.any fun p => decide (cfg.min_workload_memory_gb < procMemGb p)

/-- A fresh coordinator over the dataclass defaults, constructed at time 0. -/
def coord0 : HardwareSafetyCoordinator :=
  HardwareSafetyCoordinator.init defaultSafetyConfig 0

/-- A process holding 20 GiB of resident memory whose command line read back
empty (as for kernel threads), used as a concrete scan snapshot. -/
def bigQuietProc : ProcEntry :=
  { pid := 1, name := "bigproc", cmdline := [], memory_rss := some (20 * 1024 * 1024 * 1024),
    num_threads := 4 }

/-- A detector configured to disable monitoring after a single error. -/
def oneStrikeDetector : PCIeErrorDetector :=
  PCIeErrorDetector.init { defaultSafetyConfig with max_errors_before_disable := 1 } 0

/-- A `dmesg` run that produced one line matching the DPC signature. -/
def dpcDmesg : DmesgOutcome :=
  .ran 0 ["DPC: containment event detected on device"]

/-! ## Theorems -/

/-- The disable latch survives any single further check. -/
theorem checkStep_preserves_disabled (s : PCIeErrorDetector) (p : DmesgOutcome × ℚ)
    (h : s.monitoring_disabled = true) : (checkStep s p).monitoring_disabled = true := by
  simp only [checkStep, check_for_pcie_errors]
  split <;> simp [h]

/-- The disable latch survives any further sequence of checks. -/
theorem foldl_checkStep_preserves_disabled (rest : List (DmesgOutcome × ℚ))
    (s : PCIeErrorDetector) (h : s.monitoring_disabled = true) :
    (rest.foldl checkStep s).monitoring_disabled = true := by
  induction rest generalizing s with
  | nil => exact h
  | cons p rest ih => exact ih _ (checkStep_preserves_disabled s p h)

/-- C2: once a `check_for_pcie_errors` call leaves `error_count` at or above
`max_errors_before_disable`, `should_disable_monitoring` is true after that
call and stays true across every further sequence of checks, whatever their
outcomes; `reset_error_count` zeroes the count and re-enables monitoring. -/
theorem pcie_disable_latching (st : PCIeErrorDetector) (out : DmesgOutcome) (t : ℚ)
    (h : st.config.max_errors_before_disable ≤
      ((check_for_pcie_errors st out t).2.error_count : ℤ)) :
    should_disable_monitoring (check_for_pcie_errors st out t).2 = true ∧
    (∀ rest : List (DmesgOutcome × ℚ),
      should_disable_monitoring (rest.foldl checkStep (check_for_pcie_errors st out t).2) = true) ∧
    (∀ s : PCIeErrorDetector, (reset_error_count s).error_count = 0 ∧
      should_disable_monitoring (reset_error_count s) = false) := by
  have hdis : (check_for_pcie_errors st out t).2.monitoring_disabled = true := by
    simp only [check_for_pcie_errors] at h ⊢
    split
    · rfl
    · omega
  refine ⟨hdis, fun rest => foldl_checkStep_preserves_disabled rest _ hdis, fun s => ⟨rfl, rfl⟩⟩

theorem pcie_disable_latching_witness :
    (oneStrikeDetector.config.max_errors_before_disable ≤
      ((check_for_pcie_errors oneStrikeDetector dpcDmesg 1).2.error_count : ℤ)) ∧
    should_disable_monitoring
      ([(dpcDmesg, 2), (.fileNotFoundError, 3)].foldl checkStep
        (check_for_pcie_errors oneStrikeDetector dpcDmesg 1).2) = true :=
  ⟨by decide,
   (pcie_disable_latching oneStrikeDetector dpcDmesg 1 (by decide)).2.1
     [(dpcDmesg, 2), (.fileNotFoundError, 3)]⟩

/-- C6: when the `dmesg` subprocess raises any of the exceptions the source
anticipates (command missing, timeout, called-process failure), the check
returns `(False, [])` and leaves `error_count` unchanged; and when `dmesg`
runs but exits nonzero (the access-denied case), the same holds.  The call
itself is total: the `except` clause turns the unavailability into the
no-errors result. -/
theorem check_unavailable_no_errors (st : PCIeErrorDetector) (t : ℚ) (out : DmesgOutcome)
    (h : out = .timeoutExpired ∨ out = .calledProcessError ∨ out = .fileNotFoundError ∨
      ∃ rc lines, rc ≠ 0 ∧ out = .ran rc lines) :
    (check_for_pcie_errors st out t).1 = (false, []) ∧
    (check_for_pcie_errors st out t).2.error_count = st.error_count := by
  rcases h with h | h | h | ⟨rc, lines, hrc, h⟩
  · subst h; simp [check_for_pcie_errors]
  · subst h; simp [check_for_pcie_errors]
  · subst h; simp [check_for_pcie_errors]
  · subst h; simp [check_for_pcie_errors, hrc]

theorem check_unavailable_no_errors_witness :
    (check_for_pcie_errors oneStrikeDetector .fileNotFoundError 7).1 = (false, []) ∧
    (check_for_pcie_errors oneStrikeDetector .fileNotFoundError 7).2.error_count =
      oneStrikeDetector.error_count :=
  check_unavailable_no_errors oneStrikeDetector 7 .fileNotFoundError (by simp)

/-- C4 counterexample: constructing a `SafetyConfig` with a non-positive
poll interval succeeds (no `ConfigInvalid` and no error of any kind is
raised), because the dataclass performs no validation. -/
theorem config_invalid_construct_succeeds :
    (SafetyConfig.construct (-1) 2 5 1 60 3 1 1 "/tmp/tt_device_lock"
      "/tmp/tt_monitors_active").isOk = true ∧ ¬((0 : ℚ) < -1) := by
  exact ⟨rfl, by norm_num⟩

/-- C4 amended: `SafetyConfig` construction performs no validation at all and
never raises: it succeeds for every argument tuple, valid or not — in
particular for every configuration with positive durations and
`max_errors_before_disable ≥ 1`. -/
theorem config_construct_total (npi wpi cpi mlw : ℚ) (edw meb : ℤ)
    (wci mwm : ℚ) (lbp cf : String) :
    (SafetyConfig.construct npi wpi cpi mlw edw meb wci mwm lbp cf).isOk = true := rfl

/-- C5 counterexample: `set_custom_poll_interval` writes through to the
config — after setting a custom interval of 3s on a coordinator built over the
defaults, `config.normal_poll_interval` reads back 3 instead of its
construction-time value 1/10. -/
theorem set_custom_mutates_config :
    (set_custom_poll_interval coord0 3).config.normal_poll_interval = 3 ∧
    coord0.config.normal_poll_interval = 1/10 ∧ (1/10 : ℚ) ≠ 3 := by
  refine ⟨rfl, rfl, by norm_num⟩

/-- C5 amended: `force_safety_mode` and `get_safe_poll_interval` leave every
field of the coordinator's config unchanged, but `set_custom_poll_interval`
overwrites `config.normal_poll_interval` with the custom interval (leaving the
other fields at their construction-time values). -/
theorem config_mutation_frame (s : HardwareSafetyCoordinator) (b : Bool) (i now : ℚ)
    (procs : List ProcEntry) (out : DmesgOutcome) :
    (force_safety_mode s b).config = s.config ∧
    (get_safe_poll_interval s now procs out).2.config = s.config ∧
    (set_custom_poll_interval s i).config = { s.config with normal_poll_interval := i } := by
  refine ⟨?_, ?_, rfl⟩
  · unfold force_safety_mode; split <;> rfl
  · simp only [get_safe_poll_interval]
    split_ifs <;> rfl

/-- C1 counterexample: `force_safety_mode true` does not pin the interval.
On a fresh default coordinator, forcing safety mode and then calling
`get_safe_poll_interval` at time 2 (workload check interval elapsed) with an
empty process table and an error-free `dmesg` returns
`normal_poll_interval` (1/10), not `workload_poll_interval` (2), even though
monitoring is not disabled. -/
theorem force_safety_not_pinned :
    (get_safe_poll_interval (force_safety_mode coord0 true) 2 [] (.ran 0 [])).1 =
      PollResult.interval coord0.config.normal_poll_interval ∧
    coord0.config.normal_poll_interval ≠ coord0.config.workload_poll_interval ∧
    should_disable_monitoring (force_safety_mode coord0 true).pcie_error_detector = false := by
  refine ⟨?_, by norm_num [coord0, HardwareSafetyCoordinator.init, defaultSafetyConfig], rfl⟩
  norm_num [get_safe_poll_interval, force_safety_mode, coord0,
    HardwareSafetyCoordinator.init, defaultSafetyConfig, PCIeErrorDetector.init,
    should_disable_monitoring, detect_ml_workloads, WorkloadState.init,
    check_for_pcie_errors, matchedPcieLines]

/-- C1 amended: after `force_safety_mode true`, the next
`get_safe_poll_interval` call returns the infinite sentinel when the error
detector has latched disabled; otherwise `critical_poll_interval` when the
unconditional error check matches new lines; otherwise `normal_poll_interval`
when the workload check interval has elapsed and the detector reports no
active workload (the recomputation overrides the forced interval); and only
otherwise the forced `workload_poll_interval`. -/
theorem force_then_get_safe_poll_interval (s : HardwareSafetyCoordinator) (now : ℚ)
    (procs : List ProcEntry) (out : DmesgOutcome) :
    (get_safe_poll_interval (force_safety_mode s true) now procs out).1 =
      (if s.pcie_error_detector.monitoring_disabled then PollResult.infiniteSentinel
       else if (check_for_pcie_errors s.pcie_error_detector out now).1.1 then
         PollResult.interval s.config.critical_poll_interval
       else if s.config.workload_check_interval < now - s.last_workload_check ∧
           (detect_ml_workloads s.config procs now).is_workload_active = false then
         PollResult.interval s.config.normal_poll_interval
       else PollResult.interval s.config.workload_poll_interval) := by
  simp only [force_safety_mode, if_pos, get_safe_poll_interval, should_disable_monitoring]
  by_cases hdis : s.pcie_error_detector.monitoring_disabled
  · simp [hdis]
  · simp only [hdis, if_false, Bool.false_eq_true]
    by_cases helapsed : s.config.workload_check_interval < now - s.last_workload_check
    · by_cases hact : (detect_ml_workloads s.config procs now).is_workload_active
      · simp [helapsed, hact]
        split <;> simp [hact]
      · simp only [helapsed, if_true, hact, Bool.false_eq_true, if_false]
        split <;> simp [hact]
    · simp only [helapsed, if_false]
      split <;> simp [helapsed]

/-- The count of ML-matched processes accumulated by the scan loop. -/
theorem wlStep_total (cfg : SafetyConfig) (st : WorkloadState) (p : ProcEntry) :
    (wlStep cfg st p).total_ml_processes =
      st.total_ml_processes + (if mlMatched p then 1 else 0) := by
  simp only [wlStep, mlMatched, mlConsidered]
  split_ifs <;> simp_all [List.isEmpty_iff]

/-- The length of the high-memory list accumulated by the scan loop. -/
theorem wlStep_high_length (cfg : SafetyConfig) (st : WorkloadState) (p : ProcEntry) :
    (wlStep cfg st p).high_memory_processes.length =
      st.high_memory_processes.length + (if highMem cfg p then 1 else 0) := by
  simp only [wlStep, highMem, mlConsidered]
  split_ifs <;> simp_all [List.isEmpty_iff] <;> linarith

theorem foldl_wlStep_total (cfg : SafetyConfig) (procs : List ProcEntry)
    (st : WorkloadState) :
    (procs.foldl (wlStep cfg) st).total_ml_processes =
      st.total_ml_processes + procs.countP mlMatched := by
  induction procs generalizing st with
  | nil => simp
  | cons p ps ih =>
      simp only [List.foldl_cons, ih, wlStep_total, List.countP_cons]
      split <;> omega

theorem foldl_wlStep_high (cfg : SafetyConfig) (procs : List ProcEntry)
    (st : WorkloadState) :
    (procs.foldl (wlStep cfg) st).high_memory_processes.length =
      st.high_memory_processes.length + procs.countP (highMem cfg) := by
  induction procs generalizing st with
  | nil => simp
  | cons p ps ih =>
      simp only [List.foldl_cons, ih, wlStep_high_length, List.countP_cons]
      split <;> omega

/-- C7 counterexample: a scan seeing exactly one process that holds 20 GiB of
resident memory but whose command line is empty yields
`is_workload_active = false`, although the claim's formula — some process,
matched or not, individually exceeding the 1 GiB threshold — says active. -/
theorem workload_active_claim_counterexample :
    claimWorkloadActive defaultSafetyConfig [bigQuietProc] 0 = true ∧
    (detect_ml_workloads defaultSafetyConfig [bigQuietProc] 0).is_workload_active = false := by
  constructor
  · norm_num [claimWorkloadActive, procMemGb, bigQuietProc, defaultSafetyConfig]
  · norm_num [detect_ml_workloads, wlStep, WorkloadState.init, bigQuietProc,
      defaultSafetyConfig]

/-- C7 amended: `is_workload_active` is true iff at least one scanned process
with a non-empty command line is ML-matched, or the aggregate matched memory
exceeds `min_workload_memory_gb`, or at least one scanned process with a
non-empty command line (matched or not) individually exceeds that threshold;
processes whose command line is empty are skipped by the scan and never count
towards any of the three disjuncts. -/
theorem workload_active_iff (cfg : SafetyConfig) (procs : List ProcEntry) (now : ℚ) :
    (detect_ml_workloads cfg procs now).is_workload_active = true ↔
      ((∃ p ∈ procs, p.cmdline ≠ [] ∧
          (detect_ml_framework (procCmd p)).framework ≠ "unknown") ∨
       cfg.min_workload_memory_gb < (detect_ml_workloads cfg procs now).total_ml_memory_gb ∨
       (∃ p ∈ procs, p.cmdline ≠ [] ∧ cfg.min_workload_memory_gb < procMemGb p)) := by
  have hm : ∀ p : ProcEntry, mlMatched p = true ↔
      (p.cmdline ≠ [] ∧ (detect_ml_framework (procCmd p)).framework ≠ "unknown") := by
    intro p; simp [mlMatched, mlConsidered, List.isEmpty_iff]
  have hh : ∀ p : ProcEntry, highMem cfg p = true ↔
      (p.cmdline ≠ [] ∧ cfg.min_workload_memory_gb < procMemGb p) := by
    intro p; simp [highMem, mlConsidered, List.isEmpty_iff]
  simp only [detect_ml_workloads, Bool.or_eq_true, decide_eq_true_eq]
  rw [foldl_wlStep_total, foldl_wlStep_high]
  simp [List.countP_pos_iff, hm, hh, WorkloadState.init]
  exact or_assoc

/-- A wait loop whose every attempt hits contention ends with the lock not
acquired. -/
theorem lockAttemptLoop_all_blocked (l : List FlockAttempt)
    (h : ∀ a ∈ l, a = FlockAttempt.blocked) : lockAttemptLoop l = false := by
  induction l with
  | nil => rfl
  | cons a t ih =>
      have ha := h a (by simp)
      subst ha
      exact ih fun b hb => h b (by simp [hb])

/-- A wait loop that reaches a successful attempt after only contention ends
with the lock acquired. -/
theorem lockAttemptLoop_reaches_success (pre : List FlockAttempt)
    (h : ∀ a ∈ pre, a = FlockAttempt.blocked) :
    lockAttemptLoop (pre ++ [FlockAttempt.success]) = true := by
  induction pre with
  | nil => rfl
  | cons a t ih =>
      have ha := h a (by simp)
      subst ha
      exact ih fun b hb => h b (by simp [hb])

/-- A wait loop whose attempts never succeed up to an exception ends with the
lock not acquired (the exception lands in the outer handler). -/
theorem lockAttemptLoop_exception (pre rest : List FlockAttempt)
    (h : ∀ a ∈ pre, a ≠ FlockAttempt.success) :
    lockAttemptLoop (pre ++ FlockAttempt.otherError :: rest) = false := by
  induction pre with
  | nil => rfl
  | cons a t ih =>
      have ha := h a (by simp)
      cases a with
      | success => exact absurd rfl ha
      | blocked => exact ih fun b hb => h b (by simp [hb])
      | otherError => rfl

/-- C8: when every `flock` attempt the wait window allows hits contention
(the timeout path), acquisition returns a handle — no exception — with
`acquired = false`, so `is_locked()` reports false; and on the success path
(a successful attempt after any run of contention) the same entry point
returns a handle with `is_locked()` true. -/
theorem lock_timeout_returns_handle (d : ℤ) (cfg : SafetyConfig)
    (attempts : List FlockAttempt) (h : ∀ a ∈ attempts, a = FlockAttempt.blocked) :
    is_locked (lockEnter d cfg .opened attempts) = false ∧
    (lockEnter d cfg .opened attempts).lock_file_open = true ∧
    (∀ pre : List FlockAttempt, (∀ a ∈ pre, a = FlockAttempt.blocked) →
      is_locked (lockEnter d cfg .opened (pre ++ [FlockAttempt.success])) = true) := by
  refine ⟨?_, rfl, fun pre hpre => ?_⟩
  · simp [is_locked, lockEnter, lockAttemptLoop_all_blocked attempts h]
  · simp [is_locked, lockEnter, lockAttemptLoop_reaches_success pre hpre]

theorem lock_timeout_returns_handle_witness :
    (∀ a ∈ [FlockAttempt.blocked, FlockAttempt.blocked], a = FlockAttempt.blocked) ∧
    is_locked (lockEnter 0 defaultSafetyConfig .opened
      [FlockAttempt.blocked, FlockAttempt.blocked]) = false :=
  ⟨by decide,
   (lock_timeout_returns_handle 0 defaultSafetyConfig
     [FlockAttempt.blocked, FlockAttempt.blocked] (by decide)).1⟩

/-- C10: acquisition never propagates an exception: if the `open` of the lock
file raises, the handle comes back with `acquired = false`; and if a `flock`
attempt raises something other than `BlockingIOError` before any success, the
outer handler returns the handle with `acquired = false` as well. -/
theorem lock_failure_returns_handle (d : ℤ) (cfg : SafetyConfig)
    (attempts pre rest : List FlockAttempt)
    (h : ∀ a ∈ pre, a ≠ FlockAttempt.success) :
    (lockEnter d cfg .raised attempts).acquired = false ∧
    is_locked (lockEnter d cfg .opened (pre ++ FlockAttempt.otherError :: rest)) = false := by
  refine ⟨rfl, ?_⟩
  simp [is_locked, lockEnter, lockAttemptLoop_exception pre rest h]

theorem lock_failure_returns_handle_witness :
    (∀ a ∈ [FlockAttempt.blocked], a ≠ FlockAttempt.success) ∧
    (lockEnter 0 defaultSafetyConfig .raised []).acquired = false ∧
    is_locked (lockEnter 0 defaultSafetyConfig .opened
      [FlockAttempt.blocked, FlockAttempt.otherError, FlockAttempt.success]) = false :=
  ⟨by decide,
   (lock_failure_returns_handle 0 defaultSafetyConfig [] [FlockAttempt.blocked]
     [FlockAttempt.success] (by decide)).1,
   (lock_failure_returns_handle 0 defaultSafetyConfig [] [FlockAttempt.blocked]
     [FlockAttempt.success] (by decide)).2⟩

/-- C9: the command line `torchrun --nproc_per_node=8 train_llama.py` is
classified with framework `pytorch` (via the `torchrun` pattern), workload
type `training` (via `train`), and confidence strictly above 0.7 — the
confidence is the maximum of the three axis scores 0.8 (framework), 0.7
(model type, matched here via `llama`) and 0.6 (workload type); the simpler
substring classifier of `safety.py` agrees on framework and workload type. -/
theorem torchrun_classification :
    (analyze_cmdline_for_ml_patterns "torchrun --nproc_per_node=8 train_llama.py").framework
      = "pytorch" ∧
    (analyze_cmdline_for_ml_patterns "torchrun --nproc_per_node=8 train_llama.py").workload_type
      = "training" ∧
    (7/10 : ℚ) <
      (analyze_cmdline_for_ml_patterns "torchrun --nproc_per_node=8 train_llama.py").confidence ∧
    (analyze_cmdline_for_ml_patterns "torchrun --nproc_per_node=8 train_llama.py").confidence
      = max (8/10 : ℚ) (max (7/10) (6/10)) ∧
    (detect_ml_framework (strLower "torchrun --nproc_per_node=8 train_llama.py")).framework
      = "pytorch" ∧
    (detect_ml_framework (strLower "torchrun --nproc_per_node=8 train_llama.py")).workload_type
      = "training" := by
  refine ⟨rfl, rfl, ?_, rfl, rfl, rfl⟩
  have h : (analyze_cmdline_for_ml_patterns
      "torchrun --nproc_per_node=8 train_llama.py").confidence
      = max (8/10 : ℚ) (max (7/10) (6/10)) := rfl
  rw [h]
  norm_num

end TTTop
